import Mathlib

/-!
Verification development for `src/process-repos.py` of the commit-msg-ai
repository: a shallow embedding in Lean 4 of the pure content of the
extraction pipeline (commit-subject sanitization, commit filtering,
history windowing, diff truncation, affected-file assembly, license
resolution, and the per-repository processing loop), together with
theorems settling the specification claims.

Python strings are modelled as Lean `String` (a list of characters);
Python slicing `s[:n]` is `pyTake`, `str.strip` is `pyStrip` /
`pyStripChars`, `str.splitlines` is `pySplitlines`, `"\n".join` is
`joinNl`.  The regular-expression substitutions of `clean_message` are
embedded as deterministic scanners; for these particular patterns
Python's backtracking can never change the outcome (whitespace cannot
match `#` or `(`, and shortening a greedy digit run can never repair a
failed word-boundary), so the scanners implement exactly `re.sub`'s
leftmost, non-overlapping semantics.  Word characters and whitespace are
modelled over their ASCII ranges (every string appearing in the claims
is ASCII).
-/

/-- Characters matched by Python's `\s` (and stripped by `str.strip()`),
restricted to ASCII. -/
def pyIsSpace (c : Char) : Bool :=
  c == ' ' || c == '\t' || c == '\n' || c == '\r' || c == '\x0b' || c == '\x0c'

/-- Characters matched by Python's `\w` (word characters), ASCII range. -/
def isWordChar (c : Char) : Bool :=
  c.isAlpha || c.isDigit || c == '_'

/-- Python slicing `s[:n]`: the first `n` characters of `s`. -/
def pyTake (s : String) (n : Nat) : String :=
  ⟨s.data.take n⟩

/-- Strip characters satisfying `p` from both ends of a character list
(the semantics of Python `str.strip`). -/
def stripData (p : Char → Bool) (l : List Char) : List Char :=
  ((l.dropWhile p).reverse.dropWhile p).reverse

/-- Python `str.strip()` (whitespace from both ends). -/
def pyStrip (s : String) : String :=
  ⟨stripData pyIsSpace s.data⟩

/-- Python `str.strip(chars)`: strip any of the given characters from both
ends. -/
def pyStripChars (chars : String) (s : String) : String :=
  ⟨stripData (fun c => chars.data.contains c) s.data⟩

/-- Python `s.startswith(pre)`. -/
def strStarts (pre s : String) : Bool :=
  pre.data.isPrefixOf s.data

/-- Line-boundary characters of Python `str.splitlines`. -/
def isLineBreak (c : Char) : Bool :=
  c == '\n' || c == '\r' || c == '\x0b' || c == '\x0c' || c == '\x1c' ||
  c == '\x1d' || c == '\x1e' || c == '\x85' || c == '\u2028' || c == '\u2029'

/-- Worker for `pySplitlines`; `acc` holds the current line reversed. -/
def splitlinesAux : List Char → List Char → List String
  | [], acc => if acc.isEmpty then [] else [⟨acc.reverse⟩]
  | '\r' :: '\n' :: rest, acc => ⟨acc.reverse⟩ :: splitlinesAux rest []
  | c :: rest, acc =>
    if isLineBreak c then ⟨acc.reverse⟩ :: splitlinesAux rest []
    else splitlinesAux rest (c :: acc)

/-- Python `str.splitlines()`: split at line boundaries (`\n`, `\r`,
`\r\n`, ...), with no trailing empty line for a trailing terminator. -/
def pySplitlines (s : String) : List String :=
  splitlinesAux s.data []

/-- Python `"\n".join(l)`. -/
def joinNl : List String → String
  | [] => ""
  | [s] => s
  | s :: rest => s ++ "\n" ++ joinNl rest

/-- Case-insensitive literal match: if (the lowercase) `pat` is a prefix of
`l` up to `Char.toLower`, return the remainder of `l`. -/
def ciPrefix : List Char → List Char → Option (List Char)
  | [], l => some l
  | _ :: _, [] => none
  | k :: ks, c :: cs => if c.toLower == k then ciPrefix ks cs else none

/-- Alternation branches of the first `clean_message` pattern
`(?i)\b(fixes|closes|resolves|related|addresses?)...` in the order the
regex engine tries them (`addresses?` greedily tries the `s` first). -/
def keywordAlts : List (List Char) :=
  ["fixes".data, "closes".data, "resolves".data, "related".data,
   "addresses".data, "addresse".data]

/-- Match the `\s*#[0-9]+\b` tail of the issue-reference pattern at the
head of `l`; on success return the remainder after the digits.  The
trailing `\b` holds iff the next character is absent or a non-word
character (backtracking the greedy digit run can never make it hold). -/
def matchTailRefs (l : List Char) : Option (List Char) :=
  match l.dropWhile pyIsSpace with
  | '#' :: r =>
    let ds := r.takeWhile Char.isDigit
    if ds.isEmpty then none
    else
      match r.drop ds.length with
      | [] => some []
      | c :: rest => if isWordChar c then none else some (c :: rest)
  | _ => none

/-- Try the keyword alternatives in order at the head of `l`; each branch
must be followed by a successful `matchTailRefs`. -/
def firstKeywordMatch : List (List Char) → List Char → Option (List Char)
  | [], _ => none
  | k :: ks, l =>
    match ciPrefix k l with
    | some rest =>
      match matchTailRefs rest with
      | some r2 => some r2
      | none => firstKeywordMatch ks l
    | none => firstKeywordMatch ks l

/-- Scanner for
`re.sub(r"(?i)\b(fixes|closes|resolves|related|addresses?)\s*#[0-9]+\b", "", s)`
(line 53 of `process-repos.py`).  `prevWord` records whether the previous
character of the original string is a word character: the leading `\b`
can only hold when it is not.  After a removal the previous character is
the final matched digit, hence a word character. -/
def subIssueAux : Nat → Bool → List Char → List Char
  | 0, _, l => l
  | _ + 1, _, [] => []
  | fuel + 1, prevWord, c :: rest =>
    if prevWord then c :: subIssueAux fuel (isWordChar c) rest
    else
      match firstKeywordMatch keywordAlts (c :: rest) with
      | some r2 => subIssueAux fuel true r2
      | none => c :: subIssueAux fuel (isWordChar c) rest

/-- First substitution of `clean_message`: remove issue-reference phrases. -/
def subIssueRefs (s : String) : String :=
  ⟨subIssueAux s.data.length false s.data⟩

/-- Match `\s*\(#[0-9]+\)` at the head of `l`; on success return the
remainder after the closing parenthesis. -/
def matchParenAt (l : List Char) : Option (List Char) :=
  match l.dropWhile pyIsSpace with
  | '(' :: '#' :: r =>
    let ds := r.takeWhile Char.isDigit
    if ds.isEmpty then none
    else
      match r.drop ds.length with
      | ')' :: rest => some rest
      | _ => none
  | _ => none

/-- Scanner for `re.sub(r"\s*\(#[0-9]+\)", "", s)` (line 54). -/
def subParenAux : Nat → List Char → List Char
  | 0, l => l
  | _ + 1, [] => []
  | fuel + 1, c :: rest =>
    match matchParenAt (c :: rest) with
    | some r2 => subParenAux fuel r2
    | none => c :: subParenAux fuel rest

/-- Second substitution of `clean_message`: remove parenthesized refs. -/
def subParenRefs (s : String) : String :=
  ⟨subParenAux s.data.length s.data⟩

/-- Match `#[0-9]+\b` at the head of `l` (the leading `\b` of the pattern
is handled by the caller); on success return the remainder. -/
def matchBareAt (l : List Char) : Option (List Char) :=
  match l with
  | '#' :: r =>
    let ds := r.takeWhile Char.isDigit
    if ds.isEmpty then none
    else
      match r.drop ds.length with
      | [] => some []
      | c :: rest => if isWordChar c then none else some (c :: rest)
  | _ => none

/-- Scanner for `re.sub(r"\b#[0-9]+\b", "", s)` (line 55).  Since `#` is
not a word character, the leading `\b` holds exactly when the previous
character is a word character (so never at the start of the string). -/
def subBareAux : Nat → Bool → List Char → List Char
  | 0, _, l => l
  | _ + 1, _, [] => []
  | fuel + 1, prevWord, c :: rest =>
    if prevWord then
      match matchBareAt (c :: rest) with
      | some r2 => subBareAux fuel true r2
      | none => c :: subBareAux fuel (isWordChar c) rest
    else c :: subBareAux fuel (isWordChar c) rest

/-- Third substitution of `clean_message`: remove remaining bare refs. -/
def subBareRefs (s : String) : String :=
  ⟨subBareAux s.data.length false s.data⟩

/-- Scanner for `re.sub(r"\s+", " ", s)` (line 56): each maximal run of
whitespace becomes a single space.  `inRun` records whether the previous
character was whitespace (its run already emitted its space). -/
def collapseAux : Bool → List Char → List Char
  | _, [] => []
  | inRun, c :: rest =>
    if pyIsSpace c then
      (if inRun then ([] : List Char) else [' ']) ++ collapseAux true rest
    else c :: collapseAux false rest

/-- Fourth substitution of `clean_message`: collapse whitespace runs. -/
def collapseWs (s : String) : String :=
  ⟨collapseAux false s.data⟩

/-- Embedding of `clean_message` (lines 47-57 of `process-repos.py`):
take the first line of the stripped message (`msg.strip().split("\n")[0]`
is exactly the longest `\n`-free prefix), strip it, apply the four
substitutions in source order, then strip whitespace and then the
trailing punctuation set `.,;:!?`. -/
def clean_message (msg : String) : String :=
  if msg = "" then ""
  else
    let subject := pyStrip ⟨(pyStrip msg).data.takeWhile (fun c => c != '\n')⟩
    let s1 := subIssueRefs subject
    let s2 := subParenRefs s1
    let s3 := subBareRefs s2
    let s4 := collapseWs s3
    pyStripChars ".,;:!?" (pyStrip s4)

/-- Embedding of `REGEX_FILTER_MERGE = re.compile(r"^[Mm]erge\\s")` applied
with `.match` (anchored at the start of the subject). -/
def isMergeSubject (s : String) : Bool :=
  match s.data with
  | c :: 'e' :: 'r' :: 'g' :: 'e' :: w :: _ => (c == 'M' || c == 'm') && pyIsSpace w
  | _ => false

/-- Embedding of `REGEX_FILTER_REVERT = re.compile(r"^[Rr]evert\\s")` applied
with `.match`. -/
def isRevertSubject (s : String) : Bool :=
  match s.data with
  | c :: 'e' :: 'v' :: 'e' :: 'r' :: 't' :: w :: _ => (c == 'R' || c == 'r') && pyIsSpace w
  | _ => false

/-- Merge/Revert/squash/fixup rejection test of the per-commit loop
(lines 145-150 of `process-repos.py`). -/
def isFilteredSubject (msg : String) : Bool :=
  isMergeSubject msg || isRevertSubject msg ||
  strStarts "squash!" msg || strStarts "fixup!" msg

/-- Trailing `\b` test: holds at the end of the string or before a
non-word character. -/
def wordBoundaryAfter : List Char → Bool
  | [] => true
  | c :: _ => !isWordChar c

/-- Test whether `BOT_PATTERN = \b(?:bot|robot)\b|\[bot\]` (IGNORECASE)
matches at the head of `l`; `prevWord` gives the word-character status of
the previous character (for the leading `\b` of the first alternative;
the `[bot]` alternative needs no boundary). -/
def botMatchAt (prevWord : Bool) (l : List Char) : Bool :=
  (ciPrefix "[bot]".data l).isSome ||
  (!prevWord &&
    ((match ciPrefix "bot".data l with
      | some rest => wordBoundaryAfter rest
      | none => false) ||
     (match ciPrefix "robot".data l with
      | some rest => wordBoundaryAfter rest
      | none => false)))

/-- Scanner for `BOT_PATTERN.search`: true iff the pattern matches at some
position. -/
def botSearchAux : Bool → List Char → Bool
  | _, [] => false
  | prevWord, c :: rest => botMatchAt prevWord (c :: rest) || botSearchAux (isWordChar c) rest

/-- Embedding of `BOT_PATTERN.search(author)` (line 152). -/
def isBotAuthor (author : String) : Bool :=
  botSearchAux false author.data

/-- One walked commit as parsed from the `git log` output (lines 129-135):
hash, author and raw subject, each already `.strip()`-ed by the parser. -/
structure CommitInfo where
  hash : String
  author : String
  rawMsg : String
deriving DecidableEq

/-- The command-line arguments consumed by `process_repo`.  The optional
`repo_source` passthrough (`--mark-source`, lines 183-184) attaches an
extra constant field to every record and is not modelled, since no claim
concerns it. -/
structure Args where
  maxCommits : Nat
  maxDiffSize : Nat
  skipBotCommits : Bool

/-- Abstraction of one repository directory as `process_repo` observes it:
whether `<path>/.git` exists, the walked (newest-first, already
merge-free, up to the fetch limit `max_commits + 5`) commit sequence
parsed from `git log`, and the outputs of the two `git show` calls per
commit hash (`none` models a `subprocess.CalledProcessError`). -/
structure RepoData where
  hasGit : Bool
  commits : List CommitInfo
  showDiff : String → Option String
  showNameOnly : String → Option String

/-- One output record (the `entry` dict of lines 175-182). -/
structure Record where
  commit_msg : String
  change : String
  recent_commits_message : String
  license : String
  code_style : String
  affected_files : List String
deriving DecidableEq

/-- One line of `history_lines` (line 134): `f"{h[:7]} {msg}"`. -/
def historyLine (c : CommitInfo) : String :=
  pyTake c.hash 7 ++ " " ++ c.rawMsg

/-- The full `history_lines` list, built from every walked commit
(unfiltered). -/
def historyLines (commits : List CommitInfo) : List String :=
  commits.map historyLine

/-- The slice `history_lines[i+1 : i+6]` used as the context window. -/
def windowLines (commits : List CommitInfo) (i : Nat) : List String :=
  ((historyLines commits).drop (i + 1)).take 5

/-- Embedding of `recent_context = "\n".join(history_lines[i+1 : i+6])`
(line 155). -/
def recent_context (commits : List CommitInfo) (i : Nat) : String :=
  joinNl (windowLines commits i)

/-- Embedding of the truncation step of lines 164-165 (and 115-116):
`if len(t) > maxSize: t = t[:maxSize] + "...TRUNCATED"`. -/
def truncateWithMarker (s : String) (maxSize : Nat) : String :=
  if maxSize < s.length then pyTake s maxSize ++ "...TRUNCATED" else s

/-- Embedding of line 173:
`[line for line in files_out.splitlines() if line.strip()]`. -/
def affectedFiles (files_out : String) : List String :=
  (pySplitlines files_out).filter (fun l => !(pyStrip l == ""))

/-- The acceptance test of the per-commit loop (lines 144-153): the
subject filter, then the optional bot-author filter. -/
def acceptCommit (args : Args) (c : CommitInfo) : Bool :=
  !(isFilteredSubject c.rawMsg) && !(args.skipBotCommits && isBotAuthor c.author)

/-- One iteration of the per-commit loop (lines 140-189) for the commit
`c` at walked position `i`: `none` when the commit is filtered out or one
of its `git show` calls fails, otherwise the record written to the
output file. -/
def extractRecord (repo : RepoData) (args : Args) (license code_style : String)
    (i : Nat) (c : CommitInfo) : Option Record :=
  if acceptCommit args c then
    match repo.showDiff c.hash, repo.showNameOnly c.hash with
    | some diff, some files =>
      some { commit_msg := clean_message c.rawMsg
             change := truncateWithMarker diff args.maxDiffSize
             recent_commits_message := recent_context repo.commits i
             license := license
             code_style := code_style
             affected_files := affectedFiles files }
    | _, _ => none
  else none

/-- The loop body at index `i`, looking the commit up in the walked list. -/
def commitStep (repo : RepoData) (args : Args) (license code_style : String)
    (i : Nat) : Option Record :=
  (repo.commits.get? i).bind fun c => extractRecord repo args license code_style i c

/-- The records written by the loop
`for i in range(min(len(processed_commits), args.max_commits))` (line 140),
in write order. -/
def processRepoRecords (repo : RepoData) (args : Args) (license code_style : String) :
    List Record :=
  (List.range (min repo.commits.length args.maxCommits)).filterMap
    (commitStep repo args license code_style)

/-- Embedding of `process_repo` (lines 104-193): the returned outcome
string, paired with the written output file content (`none` when the
repository is skipped before the output file is ever opened). -/
def process_repo (repo : RepoData) (args : Args) (license code_style : String)
    (repoPath repoName : String) : String × Option (List Record) :=
  if repo.hasGit then
    let recs := processRepoRecords repo args license code_style
    ("\u2705 Extracted " ++ toString recs.length ++ " commits from " ++ repoName,
     some recs)
  else
    ("Skipped: " ++ repoPath ++ " (No .git folder)", none)

/-- JSON documents as returned by `json.loads` of the classifier's
stdout.  Numbers are represented by an integer: the only property of a
number this analysis uses is whether it is zero (Python falsiness), which
is the same for the floats `json.loads` may produce.  Object fields keep
the document's own order. -/
inductive Json where
  | null
  | bool (b : Bool)
  | num (n : Int)
  | str (s : String)
  | arr (elems : List Json)
  | obj (fields : List (String × Json))

/-- Python truthiness of a decoded JSON value: `None`, `False`, `0`,
`""`, `[]` and `{}` are falsy. -/
def jsonTruthy : Json → Bool
  | .null => false
  | .bool b => b
  | .num n => n != 0
  | .str s => s != ""
  | .arr l => !l.isEmpty
  | .obj f => !f.isEmpty

/-- Exception kinds that the license block of `get_repo_metadata` can
raise and that are not named in the `except` clause of line 87
(`CalledProcessError`, `JSONDecodeError`, `FileNotFoundError`): they
escape `get_repo_metadata` and `process_repo`, which has no enclosing
handler, and are only reported by `main` as a critical thread failure
(line 301). -/
inductive PyExn where
  | attributeError
  | typeError
  | keyError
  | indexError
  | permissionError

/-- Python `value.get(key, default)`: defined only on dicts; every other
decoded JSON value has no `get` attribute and raises `AttributeError`
(in particular `None`, lists, strings, booleans and numbers). -/
def jsonGet (v : Json) (key : String) (dflt : Json) : Except PyExn Json :=
  match v with
  | .obj fields =>
    .ok (((fields.find? (fun kv => kv.1 == key)).map (fun kv => kv.2)).getD dflt)
  | _ => .error .attributeError

/-- Python `value[0]` for a decoded JSON value: list indexing (empty
lists raise `IndexError`), string indexing (a one-character string),
dicts look the integer key `0` up and raise `KeyError` since JSON object
keys are strings, and `None`, booleans and numbers are not subscriptable
(`TypeError`). -/
def jsonSubscriptZero : Json → Except PyExn Json
  | .arr [] => .error .indexError
  | .arr (x :: _) => .ok x
  | .str s =>
    match s.data with
    | [] => .error .indexError
    | c :: _ => .ok (.str ⟨[c]⟩)
  | .obj _ => .error .keyError
  | _ => .error .typeError

/-- The body of the license `try` block on a successfully parsed
document (lines 81-86): `lic = lic_data.get("licenses", [])`;
`"No License"` when `lic` is falsy, else
`lic[0].get("spdx_id") or lic[0].get("key", "Unknown")` (the second
operand is only evaluated when the first is falsy).  Any step may raise
an exception kind the `except` clause does not catch. -/
def licenseBody (doc : Json) : Except PyExn Json :=
  match jsonGet doc "licenses" (Json.arr []) with
  | .error e => .error e
  | .ok lic =>
    if jsonTruthy lic then
      match jsonSubscriptZero lic with
      | .error e => .error e
      | .ok entry =>
        match jsonGet entry "spdx_id" Json.null with
        | .error e => .error e
        | .ok sp =>
          if jsonTruthy sp then .ok sp
          else jsonGet entry "key" (Json.str "Unknown")
    else .ok (Json.str "No License")

/-- The outcome of invoking `licensee detect --json` and parsing its
stdout (lines 75-81): a parsed document, a `json.JSONDecodeError`, a
defensively-caught `subprocess.CalledProcessError` (not actually
raisable, since `subprocess.run` is called without `check=True`; no
`timeout` is passed either, so no timeout can arise), a
`FileNotFoundError` (tool not installed), or a `PermissionError` from
spawning a non-executable tool - the last is not named in the `except`
clause. -/
inductive ClassifierRun where
  | parsed (doc : Json)
  | parseError
  | invocationFailure
  | toolMissing
  | spawnDenied

/-- The `meta["license"]` value produced by the license block for a given
run outcome, or the exception that escapes it (lines 74-88).  The caught
exception kinds become `"Detection Failed: <ErrorKind>"` sentinels; a
wrong-shape document or a denied spawn raises through. -/
def resolve_license : ClassifierRun → Except PyExn Json
  | .parsed doc => licenseBody doc
  | .parseError => .ok (.str "Detection Failed: JSONDecodeError")
  | .invocationFailure => .ok (.str "Detection Failed: CalledProcessError")
  | .toolMissing => .ok (.str "Detection Failed: FileNotFoundError")
  | .spawnDenied => .error .permissionError

/-- The `meta["license"]` field: `"Unknown"` unless `include_license` is
set (the classifier is not invoked at all otherwise), in which case the
run outcome decides it. -/
def licenseField (includeLicense : Bool) (run : ClassifierRun) : Except PyExn Json :=
  if includeLicense then resolve_license run else .ok (.str "Unknown")

/-- How one `process_repo` call ends with respect to the metadata step:
skipped at the `.git` check, aborted by an exception escaping
`get_repo_metadata`, or carried on to the per-commit loop with the
resolved license value. -/
inductive UnitOutcome where
  | skipped (outcome : String)
  | aborted (e : PyExn)
  | completed (license : Json)

/-- Control flow of `process_repo` around the metadata step: the `.git`
check of line 108 runs first (returning the skip outcome with no file),
then `get_repo_metadata` at line 114; an exception escaping it aborts the
unit before the output file is ever opened at line 139, producing no
outcome string and no file.  When the step completes, the unit proceeds
to the per-commit loop of `process_repo` with the resolved license. -/
def process_repo_meta (repo : RepoData) (includeLicense : Bool) (run : ClassifierRun)
    (repoPath : String) : UnitOutcome :=
  if !repo.hasGit then .skipped ("Skipped: " ++ repoPath ++ " (No .git folder)")
  else
    match licenseField includeLicense run with
    | .error e => .aborted e
    | .ok lic => .completed lic

/-- Fixture: a three-commit repository whose every `git show` succeeds;
the third walked commit is a merge commit (rejected by the subject
filter but still present in the unfiltered window source). -/
def commitA : CommitInfo := ⟨"aaaaaaaaaa", "alice", "Add feature"⟩

/-- Fixture commit at walked position 1. -/
def commitB : CommitInfo := ⟨"bbbbbbbbbb", "bob", "Fix bug"⟩

/-- Fixture commit at walked position 2, rejected by the subject filter. -/
def commitM : CommitInfo := ⟨"cccccccccc", "carol", "Merge branch \x27x\x27 into y"⟩

/-- Fixture repository with the three commits above. -/
def repo0 : RepoData :=
  ⟨true, [commitA, commitB, commitM],
   fun _ => some "diffA", fun _ => some "a.txt\nsrc/b.py\n"⟩

/-- Fixture arguments. -/
def args0 : Args := ⟨10, 50000, false⟩

/-- Fixture commit whose `git show --name-only` output repeats a path and
is not sorted. -/
def commitC : CommitInfo := ⟨"ddddddddda", "dave", "Add files"⟩

/-- Fixture repository for the affected-files claims. -/
def repoC : RepoData :=
  ⟨true, [commitC], fun _ => some "diffC", fun _ => some "b\na\nb\n"⟩

/-- Fixture repository directory without a `.git` store. -/
def repoNoGit : RepoData := ⟨false, [], fun _ => none, fun _ => none⟩

/-! Helper lemmas. -/

/-- Unfolding of `pyTake` at the character-list level. -/
theorem pyTake_data (s : String) (n : Nat) : (pyTake s n).data = s.data.take n := rfl

/-- A string's length is the length of its character list. -/
theorem str_length_data (s : String) : s.length = s.data.length := by
  cases s
  rfl

/-- Character-list equality implies string equality. -/
theorem str_ext {s t : String} (h : s.data = t.data) : s = t := by
  cases s
  cases t
  exact congrArg String.mk h

/-- A `filterMap` has as many elements as there are inputs on which the
function succeeds. -/
theorem length_filterMap_eq_filter {a b : Type} (f : a → Option b) :
    ∀ l : List a, (l.filterMap f).length = (l.filter (fun x => (f x).isSome)).length := by
  intro l
  induction l with
  | nil => rfl
  | cons x t ih =>
    cases hx : f x <;>
      simp [List.filterMap_cons, List.filter_cons, hx, ih]

/-- Stripping characters from both ends only removes characters. -/
theorem mem_stripData {c : Char} {p : Char → Bool} {l : List Char}
    (h : c ∈ stripData p l) : c ∈ l := by
  unfold stripData at h
  rw [List.mem_reverse] at h
  have h1 : c ∈ (l.dropWhile p).reverse := (List.dropWhile_sublist p).subset h
  rw [List.mem_reverse] at h1
  exact (List.dropWhile_sublist p).subset h1

/-- Characters of `pyStripChars` output come from its input. -/
theorem mem_pyStripChars {c : Char} {cs s : String}
    (h : c ∈ (pyStripChars cs s).data) : c ∈ s.data := mem_stripData h

/-- Characters of `pyStrip` output come from its input. -/
theorem mem_pyStrip {c : Char} {s : String}
    (h : c ∈ (pyStrip s).data) : c ∈ s.data := mem_stripData h

/-- Every character emitted by the whitespace-collapsing scanner is either
the single space standing for a run or a non-whitespace input character. -/
theorem mem_collapseAux {c : Char} :
    ∀ {l : List Char} {b : Bool}, c ∈ collapseAux b l → c = ' ' ∨ pyIsSpace c = false := by
  intro l
  induction l with
  | nil => intro b h; simp [collapseAux] at h
  | cons a rest ih =>
    intro b h
    by_cases ha : pyIsSpace a
    · simp only [collapseAux, ha, if_true] at h
      rcases List.mem_append.mp h with h1 | h1
      · cases b with
        | true => simp at h1
        | false =>
          left
          simpa using h1
      · exact ih h1
    · simp only [collapseAux, ha, if_false, Bool.false_eq_true, List.mem_cons] at h
      rcases h with h1 | h1
      · right
        rw [h1]
        simpa using ha
      · exact ih h1

/-- Characters of `collapseWs` output: the run-separating space or a
non-whitespace character of the input. -/
theorem collapseWs_chars {c : Char} {s : String}
    (h : c ∈ (collapseWs s).data) : c = ' ' ∨ pyIsSpace c = false := mem_collapseAux h

/-! Claim theorems. -/

/-- C1: for every repository and every commit at walked position `i` for
which a record is written, the `recent_commits_message` field is the
newline-join of the `"<7-char-hash> <subject>"` lines at positions
`i+1 .. i+5` of the unfiltered walked sequence: the window has at most 5
lines and is a prefix of the history lines strictly after position `i`
(so it never contains the current commit or a newer one), and it is
computed from `historyLines`, which is built from every walked commit
before any filtering, so rejected chronological neighbors still appear. -/
theorem recent_window_spec (repo : RepoData) (args : Args) (license code_style : String)
    (i : Nat) (c : CommitInfo) (r : Record)
    (_hc : repo.commits.get? i = some c)
    (hr : extractRecord repo args license code_style i c = some r) :
    r.recent_commits_message = joinNl (windowLines repo.commits i) ∧
    (windowLines repo.commits i).length ≤ 5 ∧
    windowLines repo.commits i <+: (historyLines repo.commits).drop (i + 1) := by
  refine ⟨?_, ?_, ?_⟩
  · unfold extractRecord at hr
    split at hr
    · split at hr
      · injection hr with h
        subst h
        rfl
      · exact absurd hr (by simp)
    · exact absurd hr (by simp)
  · simp only [windowLines]
    exact List.length_take_le _ _
  · exact ⟨((historyLines repo.commits).drop (i + 1)).drop 5, List.take_append_drop 5 _⟩

/-- Witness for C1 at the three-commit fixture: the record written for
the newest commit carries the window formed from positions 1 and 2 of the
walked sequence, including the filtered merge commit. -/
theorem recent_window_spec_witness :
    repo0.commits.get? 0 = some commitA ∧
    extractRecord repo0 args0 "Unknown" "" 0 commitA = some
      ⟨"Add feature", "diffA",
       "bbbbbbb Fix bug\nccccccc Merge branch \x27x\x27 into y",
       "Unknown", "", ["a.txt", "src/b.py"]⟩ ∧
    ((⟨"Add feature", "diffA",
       "bbbbbbb Fix bug\nccccccc Merge branch \x27x\x27 into y",
       "Unknown", "", ["a.txt", "src/b.py"]⟩ : Record).recent_commits_message =
        joinNl (windowLines repo0.commits 0) ∧
      (windowLines repo0.commits 0).length ≤ 5 ∧
      windowLines repo0.commits 0 <+: (historyLines repo0.commits).drop 1) :=
  ⟨by decide, by decide,
   recent_window_spec repo0 args0 "Unknown" "" 0 commitA _ (by decide) (by decide)⟩

/-- C2: for every repository with at least one non-merge commit, the
number of records written never exceeds `max_commits`: the loop ranges
over the `min(walked-length, max_commits)` newest walked positions, and
each accepted position contributes exactly one record (the output length
equals the number of loop indices whose step succeeds). -/
theorem output_count_bounded (repo : RepoData) (args : Args) (license code_style : String)
    (_h : ∃ c ∈ repo.commits, isFilteredSubject c.rawMsg = false) :
    (processRepoRecords repo args license code_style).length ≤ args.maxCommits ∧
    (processRepoRecords repo args license code_style).length =
      ((List.range (min repo.commits.length args.maxCommits)).filter
        (fun i => (commitStep repo args license code_style i).isSome)).length := by
  constructor
  · calc (processRepoRecords repo args license code_style).length
        ≤ (List.range (min repo.commits.length args.maxCommits)).length :=
          List.length_filterMap_le _ _
      _ = min repo.commits.length args.maxCommits := List.length_range _
      _ ≤ args.maxCommits := Nat.min_le_right _ _
  · exact length_filterMap_eq_filter _ _

/-- Witness for C2 at the three-commit fixture (which contains non-merge
commits). -/
theorem output_count_bounded_witness :
    (∃ c ∈ repo0.commits, isFilteredSubject c.rawMsg = false) ∧
    ((processRepoRecords repo0 args0 "Unknown" "").length ≤ args0.maxCommits ∧
      (processRepoRecords repo0 args0 "Unknown" "").length =
        ((List.range (min repo0.commits.length args0.maxCommits)).filter
          (fun i => (commitStep repo0 args0 "Unknown" "" i).isSome)).length) :=
  ⟨⟨commitA, by decide, by decide⟩,
   output_count_bounded repo0 args0 "Unknown" "" ⟨commitA, by decide, by decide⟩⟩

/-- C3 counterexample: when `git show --name-only` lists a path twice and
out of order (as line 173 permits, since the code neither deduplicates
nor sorts), the written `affected_files` is `["b", "a", "b"]`, which has
duplicate entries and is not in sorted order: the claim as stated is
false of the code. -/
theorem affected_files_cex :
    (extractRecord repoC args0 "Unknown" "" 0 commitC).map (fun r => r.affected_files) =
      some ["b", "a", "b"] ∧
    ¬ (["b", "a", "b"] : List String).Nodup ∧
    ¬ (["b", "a", "b"] : List String).Pairwise (fun x y => x ≤ y) := by
  refine ⟨by decide, by decide, ?_⟩
  intro h
  have hba : ("b" : String) ≤ "a" := (List.pairwise_cons.mp h).1 "a" (by simp)
  rw [String.le_iff_toList_le] at hba
  exact absurd hba (by decide)

/-- C3 amended: the `affected_files` field of every written record is
exactly the list of non-blank lines of the commit's `--name-only` output,
in the output's own order (a sublist of its `splitlines`): no
deduplication and no sorting are performed. -/
theorem affected_files_amended (repo : RepoData) (args : Args) (license code_style : String)
    (i : Nat) (c : CommitInfo) (r : Record) (files : String)
    (hf : repo.showNameOnly c.hash = some files)
    (hr : extractRecord repo args license code_style i c = some r) :
    r.affected_files = affectedFiles files ∧
    List.Sublist (affectedFiles files) (pySplitlines files) := by
  constructor
  · unfold extractRecord at hr
    split at hr
    · split at hr
      · rename_i d f hd2 hf2
        rw [hf] at hf2
        injection hf2 with hf3
        subst hf3
        injection hr with h
        subst h
        rfl
      · exact absurd hr (by simp)
    · exact absurd hr (by simp)
  · exact List.filter_sublist _

/-- Witness for C3-amended at the duplicated-path fixture. -/
theorem affected_files_amended_witness :
    repoC.showNameOnly commitC.hash = some "b\na\nb\n" ∧
    extractRecord repoC args0 "Unknown" "" 0 commitC = some
      ⟨"Add files", "diffC", "", "Unknown", "", ["b", "a", "b"]⟩ ∧
    ((⟨"Add files", "diffC", "", "Unknown", "", ["b", "a", "b"]⟩ : Record).affected_files =
        affectedFiles "b\na\nb\n" ∧
      List.Sublist (affectedFiles "b\na\nb\n") (pySplitlines "b\na\nb\n")) :=
  ⟨by decide, by decide,
   affected_files_amended repoC args0 "Unknown" "" 0 commitC _ _ (by decide) (by decide)⟩

/-- C4: the `change` field of every written record is the diff text put
through the truncation step of lines 164-165: when the diff's length
exceeds `max_diff_size` it becomes the first `max_diff_size` characters
followed by `"...TRUNCATED"`, and otherwise it is written unchanged. -/
theorem change_truncation (repo : RepoData) (args : Args) (license code_style : String)
    (i : Nat) (c : CommitInfo) (r : Record) (diff : String)
    (hd : repo.showDiff c.hash = some diff)
    (hr : extractRecord repo args license code_style i c = some r) :
    r.change = truncateWithMarker diff args.maxDiffSize ∧
    (args.maxDiffSize < diff.length →
      r.change = pyTake diff args.maxDiffSize ++ "...TRUNCATED") ∧
    (diff.length ≤ args.maxDiffSize → r.change = diff) := by
  have hch : r.change = truncateWithMarker diff args.maxDiffSize := by
    unfold extractRecord at hr
    split at hr
    · split at hr
      · rename_i d f hd2 hf2
        rw [hd] at hd2
        injection hd2 with hd3
        subst hd3
        injection hr with h
        subst h
        rfl
      · exact absurd hr (by simp)
    · exact absurd hr (by simp)
  refine ⟨hch, ?_, ?_⟩
  · intro hlt
    rw [hch]
    unfold truncateWithMarker
    rw [if_pos hlt]
  · intro hle
    rw [hch]
    unfold truncateWithMarker
    rw [if_neg (Nat.not_lt.mpr hle)]

/-- Witness for C4 with a 3-character budget: the 5-character diff
`"diffC"` is cut to `"dif"` and the marker appended. -/
theorem change_truncation_witness :
    repoC.showDiff commitC.hash = some "diffC" ∧
    extractRecord repoC ⟨10, 3, false⟩ "Unknown" "" 0 commitC = some
      ⟨"Add files", "dif...TRUNCATED", "", "Unknown", "", ["b", "a", "b"]⟩ ∧
    ((⟨"Add files", "dif...TRUNCATED", "", "Unknown", "", ["b", "a", "b"]⟩ : Record).change =
        truncateWithMarker "diffC" (3 : Nat) ∧
      ((3 : Nat) < ("diffC" : String).length →
        (⟨"Add files", "dif...TRUNCATED", "", "Unknown", "", ["b", "a", "b"]⟩ : Record).change =
          pyTake "diffC" 3 ++ "...TRUNCATED") ∧
      (("diffC" : String).length ≤ (3 : Nat) →
        (⟨"Add files", "dif...TRUNCATED", "", "Unknown", "", ["b", "a", "b"]⟩ : Record).change =
          "diffC")) :=
  ⟨by decide, by decide,
   change_truncation repoC ⟨10, 3, false⟩ "Unknown" "" 0 commitC _ _ (by decide) (by decide)⟩

/-- C5: the truncation step is idempotent: applying it to its own output
with the same budget returns the output unchanged (a truncated text has
length `budget + 12`, and re-cutting it at `budget` recovers the same
first `budget` characters). -/
theorem truncation_idempotent (s : String) (b : Nat) :
    truncateWithMarker (truncateWithMarker s b) b = truncateWithMarker s b := by
  unfold truncateWithMarker
  by_cases h : b < s.length
  · rw [if_pos h]
    have hmin : min b s.data.length = b := by
      rw [str_length_data] at h
      exact Nat.min_eq_left (Nat.le_of_lt h)
    have h12 : (pyTake s b ++ "...TRUNCATED").length = b + 12 := by
      rw [String.length_append, str_length_data, pyTake_data, List.length_take, hmin]
      rfl
    rw [if_pos (by rw [h12]; omega)]
    have htake : pyTake (pyTake s b ++ "...TRUNCATED") b = pyTake s b := by
      apply str_ext
      rw [pyTake_data, String.data_append, pyTake_data]
      rw [List.take_append_eq_append_take, List.take_take, Nat.min_self]
      have hlb : (s.data.take b).length = b := by rw [List.length_take, hmin]
      rw [hlb, Nat.sub_self, List.take_zero, List.append_nil]
    rw [htake]
  · rw [if_neg h, if_neg h]

/-- C6: sanitizing the specific input
`"Fix bug (#123) fixes #45  really"` with `clean_message` (which applies
the removals in source order: issue-reference phrases, then parenthesized
refs, then bare refs, then whitespace collapsing and trimming) yields
`"Fix bug really"`, which contains no residual `#`-and-digits token (no
`#` at all) and no doubled spaces. -/
theorem sanitize_example :
    clean_message "Fix bug (#123) fixes #45  really" = "Fix bug really" ∧
    '#' ∉ (clean_message "Fix bug (#123) fixes #45  really").data ∧
    ¬ [' ', ' '] <:+: (clean_message "Fix bug (#123) fixes #45  really").data := by
  refine ⟨by decide, by decide, by decide⟩

/-- C7: every commit whose subject matches `^[Mm]erge\s` or `^[Rr]evert\s`
or starts with `squash!` or `fixup!` is rejected before any bot-author
check, for every argument configuration (in particular for both values of
`skip_bot_commits`), and produces no record; the subject
`"Merge branch 'x' into y"` is such a subject. -/
theorem filtered_subjects_rejected (repo : RepoData) (args : Args) (license code_style : String)
    (i : Nat) (c : CommitInfo)
    (h : isFilteredSubject c.rawMsg = true) :
    extractRecord repo args license code_style i c = none ∧
    isFilteredSubject "Merge branch \x27x\x27 into y" = true := by
  constructor
  · simp [extractRecord, acceptCommit, h]
  · decide

/-- Witness for C7 at the fixture merge commit, with bot-skipping off. -/
theorem filtered_subjects_rejected_witness :
    isFilteredSubject commitM.rawMsg = true ∧
    (extractRecord repo0 args0 "Unknown" "" 2 commitM = none ∧
      isFilteredSubject "Merge branch \x27x\x27 into y" = true) :=
  ⟨by decide, filtered_subjects_rejected repo0 args0 "Unknown" "" 2 commitM (by decide)⟩

/-- C8: the claim (and the spec, and the docstring of
`get_repo_metadata`, "ignores external tool failures but reports them")
says every license-resolution outcome is a documented sentinel and never
aborts the repository's extraction, but the code contradicts that:
classifier output that parses as valid JSON of an unexpected shape - a
non-dict document such as `[]`, or a `licenses` entry without attribute
access such as in `{"licenses": ["MIT"]}` - raises an `AttributeError`
that the `except` clause of line 87 does not name, aborting the
repository's extraction before the output file is opened.  The
well-formed and caught paths do behave as documented: a first entry that
is a dict yields its truthy `spdx_id`, else its `key` (default
`"Unknown"`), an empty `licenses` list yields `"No License"`, a JSON
parse failure or missing tool yields its `"Detection Failed: <ErrorKind>"`
sentinel, and with a sentinel license the extraction proceeds to write
the output file. -/
theorem license_wrong_shape_aborts :
    process_repo_meta repoC true (ClassifierRun.parsed (Json.arr [])) "/repos/c" =
      UnitOutcome.aborted PyExn.attributeError ∧
    process_repo_meta repoC true
        (ClassifierRun.parsed (Json.obj [("licenses", Json.arr [Json.str "MIT"])]))
        "/repos/c" =
      UnitOutcome.aborted PyExn.attributeError ∧
    resolve_license (ClassifierRun.parsed
        (Json.obj [("licenses", Json.arr
          [Json.obj [("spdx_id", Json.str "MIT"), ("key", Json.str "mit")]])])) =
      Except.ok (Json.str "MIT") ∧
    resolve_license (ClassifierRun.parsed
        (Json.obj [("licenses", Json.arr
          [Json.obj [("spdx_id", Json.null), ("key", Json.str "mit")]])])) =
      Except.ok (Json.str "mit") ∧
    resolve_license (ClassifierRun.parsed (Json.obj [("licenses", Json.arr [])])) =
      Except.ok (Json.str "No License") ∧
    resolve_license ClassifierRun.parseError =
      Except.ok (Json.str "Detection Failed: JSONDecodeError") ∧
    resolve_license ClassifierRun.toolMissing =
      Except.ok (Json.str "Detection Failed: FileNotFoundError") ∧
    process_repo_meta repoC true ClassifierRun.parseError "/repos/c" =
      UnitOutcome.completed (Json.str "Detection Failed: JSONDecodeError") ∧
    (process_repo repoC args0 "Detection Failed: JSONDecodeError" "" "/repos/c" "c").2.isSome
      = true :=
  ⟨rfl, rfl, rfl, rfl, rfl, rfl, rfl, rfl, rfl⟩

/-- C9: a repository directory without a `.git` store makes `process_repo`
return the skip outcome string before the output file is ever opened: the
written content is `none` (no file is created). -/
theorem no_git_store_skips (repo : RepoData) (args : Args)
    (license code_style repoPath repoName : String)
    (h : repo.hasGit = false) :
    process_repo repo args license code_style repoPath repoName =
      ("Skipped: " ++ repoPath ++ " (No .git folder)", none) := by
  simp [process_repo, h]

/-- Witness for C9 at the fixture directory without a `.git` store. -/
theorem no_git_store_skips_witness :
    repoNoGit.hasGit = false ∧
    process_repo repoNoGit args0 "Unknown" "" "/repos/x" "x" =
      ("Skipped: " ++ "/repos/x" ++ " (No .git folder)", none) :=
  ⟨rfl, no_git_store_skips repoNoGit args0 "Unknown" "" "/repos/x" "x" rfl⟩

/-- C10 counterexample: `clean_message "abc ."` is `"abc "` - stripping
the trailing punctuation (line 57 strips whitespace first, punctuation
second) exposes a trailing space, so the output is not always free of
leading/trailing whitespace. -/
theorem clean_message_trailing_space_cex :
    clean_message "abc ." = "abc " ∧
    pyStrip (clean_message "abc .") ≠ clean_message "abc ." := by
  exact ⟨by decide, by decide⟩

/-- C10 amended: for every raw commit message, including the empty string,
`clean_message` returns a string containing no newline character (the
subject is the first line and the whitespace collapse replaces every
whitespace run by a single space), and the empty message yields the empty
string rather than an error; the output may, however, retain leading or
trailing whitespace exposed by the final punctuation strip. -/
theorem clean_message_no_newline (msg : String) :
    '\n' ∉ (clean_message msg).data ∧ clean_message "" = "" := by
  refine ⟨?_, rfl⟩
  by_cases h : msg = ""
  · subst h
    simp [clean_message]
  · intro hmem
    simp only [clean_message, if_neg h] at hmem
    have h1 := mem_pyStripChars hmem
    have h2 := mem_pyStrip h1
    rcases collapseWs_chars h2 with h3 | h3
    · exact absurd h3 (by decide)
    · exact absurd h3 (by decide)
